import Mathlib

/-!
Verification of the PHP Server Manager with VLAN support.

The Go sources are shallowly embedded: `App` models the supervisor state
(`app.go`), with Go's `map[string]*Server` split into an association list
`servers : id → ref` plus a `heap : List Server`, so that pointer sharing
between the map and slices returned by `GetServers` is observable.  The
`VLANManager` (vlan code) keeps its two maps as association lists.  Blocking
OS effects (process spawn/kill, `ip link` commands) are modelled by boolean
oracles (`OSEnv`, the `spawnOk`/`killOk` parameters): each oracle bit states
whether the corresponding OS call succeeds in the run under consideration.
Go `int` identifiers (`nextID`) are modelled as `Nat`: `nextID` is initialised
to 1 and only ever incremented, so its value never leaves `Nat` in any run
short of 2^63 creations.
-/

/-! ### Association lists (Go maps) and the server heap (Go pointers) -/

def lookupA {β : Type} : List (String × β) → String → Option β
  | [], _ => none
  | p :: t, k => if p.1 = k then some p.2 else lookupA t k

def eraseA {β : Type} : List (String × β) → String → List (String × β)
  | [], _ => []
  | p :: t, k => if p.1 = k then eraseA t k else p :: eraseA t k

def insertA {β : Type} (l : List (String × β)) (k : String) (v : β) :
    List (String × β) :=
  (k, v) :: eraseA l k

def containsS : List String → String → Bool
  | [], _ => false
  | x :: t, k => if x = k then true else containsS t k

def eraseS : List String → String → List String
  | [], _ => []
  | x :: t, k => if x = k then eraseS t k else x :: eraseS t k

def insertS (l : List String) (k : String) : List String :=
  k :: eraseS l k

def hget? {α : Type} : List α → Nat → Option α
  | [], _ => none
  | x :: _, 0 => some x
  | _ :: t, n + 1 => hget? t n

def hset {α : Type} : List α → Nat → α → List α
  | [], _, _ => []
  | _ :: t, 0, v => v :: t
  | x :: t, n + 1, v => x :: hset t n v

/-! ### Decimal conversion: strconv.Itoa and the digit scan of strconv.Atoi -/

def digitChar (d : Nat) : Char :=
  if d = 0 then '0' else if d = 1 then '1' else if d = 2 then '2'
  else if d = 3 then '3' else if d = 4 then '4' else if d = 5 then '5'
  else if d = 6 then '6' else if d = 7 then '7' else if d = 8 then '8'
  else if d = 9 then '9' else '*'

def itoaAux : Nat → Nat → List Char → List Char
  | 0, _, acc => acc
  | fuel + 1, n, acc =>
    if n < 10 then digitChar n :: acc
    else itoaAux fuel (n / 10) (digitChar (n % 10) :: acc)

/-- strconv.Itoa for the non-negative values `nextID` takes. -/
def itoa (n : Nat) : String :=
  ⟨itoaAux (n + 1) n []⟩

/-- The digit accumulation loop of strconv.ParseInt (digit value = char − '0'). -/
def atoiDigits (ds : List Char) : Nat :=
  ds.foldl (fun a c => a * 10 + (c.toNat - 48)) 0

/-- strconv.Atoi: optional sign, then decimal digits spanning the whole
string, rejected when empty, non-numeric, or out of the 64-bit int range. -/
def atoi? (s : String) : Option Int :=
  let sign : Bool × List Char :=
    match s.data with
    | '-' :: t => (true, t)
    | '+' :: t => (false, t)
    | cs => (false, cs)
  match sign with
  | (neg, ds) =>
    if ds.isEmpty then none
    else if ds.all Char.isDigit then
      let v : Int := if neg then -(atoiDigits ds : Int) else (atoiDigits ds : Int)
      if -(2 ^ 63) ≤ v ∧ v < 2 ^ 63 then some v else none
    else none

/-- The numeric value of an identity string, when it is a plain decimal
numeral (used to state the `nextID` invariant of the spec). -/
def decVal? (s : String) : Option Nat :=
  if s.data ≠ [] ∧ s.data.all Char.isDigit then some (atoiDigits s.data) else none

/-! ### Supervisor data model (app.go) -/

structure Server where
  id : String
  name : String
  port : String
  directory : String
  running : Bool
  vlanInterface : String
  ipv6Address : String
deriving DecidableEq

structure App where
  heap : List Server
  servers : List (String × Nat)
  nextID : Nat
  processes : List String
deriving DecidableEq

structure AppConfig where
  servers : List (String × Server)
  nextID : Nat
deriving DecidableEq

def NewApp : App :=
  { heap := [], servers := [], nextID := 1, processes := [] }

def readRef (a : App) (r : Nat) : Option Server :=
  hget? a.heap r

def readList (a : App) (rs : List Nat) : List (Option Server) :=
  rs.map (readRef a)

def readServer (a : App) (id : String) : Option Server :=
  (lookupA a.servers id).bind (readRef a)

/-- GetServers: the returned slice holds the same `*Server` pointers as the
map, so it is a list of heap references. -/
def GetServers (a : App) : List Nat :=
  a.servers.map Prod.snd

/-- CreateServer (app.go 142-160). -/
def CreateServer (a : App) (name port directory : String) : String × App :=
  let id := itoa a.nextID
  let server : Server :=
    { id := id, name := name, port := port, directory := directory,
      running := false, vlanInterface := "", ipv6Address := "" }
  (id, { a with heap := a.heap ++ [server],
                servers := insertA a.servers id a.heap.length,
                nextID := a.nextID + 1 })

/-- StopServer (app.go 262-289); `killOk` is whether `cmd.Process.Kill`
succeeds. -/
def StopServer (a : App) (id : String) (killOk : Bool) : Bool × App :=
  match lookupA a.servers id with
  | none => (false, a)
  | some r =>
    match hget? a.heap r with
    | none => (false, a)
    | some s =>
      if s.running then
        if containsS a.processes id then
          if killOk then
            (true, { a with heap := hset a.heap r { s with running := false },
                            processes := eraseS a.processes id })
          else (false, a)
        else
          (true, { a with heap := hset a.heap r { s with running := false } })
      else (false, a)

/-- StartServer (app.go 216-259); `spawnOk` is whether `cmd.Start` succeeds.
The background watcher that reaps the process on exit is a separate
transition and not part of this call. -/
def StartServer (a : App) (id : String) (spawnOk : Bool) : Bool × App :=
  match lookupA a.servers id with
  | none => (false, a)
  | some r =>
    match hget? a.heap r with
    | none => (false, a)
    | some s =>
      if s.running then (false, a)
      else if spawnOk then
        (true, { a with heap := hset a.heap r { s with running := true },
                        processes := insertS a.processes id })
      else (false, a)

/-- UpdateServer (app.go 163-184): stops a running target first (best-effort,
result ignored), then overwrites the three fields through the map's pointer. -/
def UpdateServer (a : App) (id name port directory : String) (killOk : Bool) :
    Bool × App :=
  match lookupA a.servers id with
  | none => (false, a)
  | some r =>
    match hget? a.heap r with
    | none => (false, a)
    | some s =>
      let a1 := if s.running then (StopServer a id killOk).2 else a
      match hget? a1.heap r with
      | none => (false, a1)
      | some s1 =>
        let s2 := { s1 with name := name, port := port, directory := directory }
        (true, { a1 with heap := hset a1.heap r s2 })

/-- DeleteServer (app.go 187-205): stops first if running (best-effort), then
removes the map entry; the record itself stays on the heap (Go GC). -/
def DeleteServer (a : App) (id : String) (killOk : Bool) : Bool × App :=
  match lookupA a.servers id with
  | none => (false, a)
  | some r =>
    let a1 :=
      match hget? a.heap r with
      | none => a
      | some s => if s.running then (StopServer a id killOk).2 else a
    (true, { a1 with servers := eraseA a1.servers id })

/-- GetServerStatus (app.go 292-302). -/
def GetServerStatus (a : App) (id : String) : Bool × Bool :=
  match lookupA a.servers id with
  | none => (false, false)
  | some r =>
    match hget? a.heap r with
    | none => (true, false)
    | some s => (true, s.running)

def clearRunning (s : Server) : Server :=
  { s with running := false }

def mkServers : List (String × Server) → Nat → List (String × Nat)
  | [], _ => []
  | p :: t, i => (p.1, i) :: mkServers t (i + 1)

/-- loadConfig (app.go 87-106): `data` is the parsed snapshot (`none` models a
read or unmarshal failure, which leaves the state alone).  The unmarshalled
records are freshly allocated, every one is then marked not running. -/
def loadConfig (a : App) (data : Option AppConfig) : App :=
  match data with
  | none => a
  | some cfg =>
    { a with heap := cfg.servers.map (fun p => clearRunning p.2),
             servers := mkServers cfg.servers 0,
             nextID := cfg.nextID }

/-- startup (app.go 70-73) applied to a fresh `NewApp`. -/
def startup (data : Option AppConfig) : App :=
  loadConfig NewApp data

/-- The identity-uniqueness invariant of the spec: `nextID` is strictly
greater than the numeric value of every identity present in the map. -/
def idBound (a : App) : Prop :=
  ∀ p ∈ a.servers, ∀ n : Nat, decVal? p.1 = some n → n < a.nextID

/-! ### Network interface provisioner (the VLAN manager source file) -/

structure VLANInterface where
  name : String
  vlanID : Int
  ipv6Address : String
  port : String
  active : Bool
deriving DecidableEq

structure VLANManager where
  ipv6Prefix : String
  interfaces : List (String × VLANInterface)
  portToVLAN : List (String × String)
deriving DecidableEq

def NewVLANManager (p : String) : VLANManager :=
  { ipv6Prefix := p, interfaces := [], portToVLAN := [] }

/-- Outcomes of the blocking OS calls the provisioner and supervisor issue:
whether net.Interfaces enumeration works and whether each `ip` command
exits successfully. -/
structure OSEnv where
  mainIfaceOk : Bool
  linkAddOk : Bool
  linkUpOk : Bool
  addrAddOk : Bool
  linkDelOk : Bool
deriving DecidableEq

def envOK : OSEnv :=
  { mainIfaceOk := true, linkAddOk := true, linkUpOk := true,
    addrAddOk := true, linkDelOk := true }

/-- Go strings.Replace with count 1 on char lists: replace the leftmost
occurrence of `pat`. -/
def isPrefixL : List Char → List Char → Bool
  | [], _ => true
  | _ :: _, [] => false
  | a :: as, b :: bs => a == b && isPrefixL as bs

def replFirstAux (pat rep : List Char) : List Char → List Char
  | [] => []
  | c :: t =>
    if isPrefixL pat (c :: t) then rep ++ (c :: t).drop pat.length
    else c :: replFirstAux pat rep t

def replaceFirst (s pat rep : String) : String :=
  ⟨replFirstAux pat.data rep.data s.data⟩

/-- createLinuxVLANInterface: three `ip` commands after auto-detecting the
uplink interface; sets Active on success.  Error strings stand in for the
opaque messages of the failing commands. -/
def createLinuxVLANInterface (env : OSEnv) (vlan : VLANInterface) :
    Except String VLANInterface :=
  if env.mainIfaceOk = false then Except.error "failed to get main interface"
  else if env.linkAddOk = false then Except.error "failed to create VLAN interface"
  else if env.linkUpOk = false then Except.error "failed to bring up VLAN interface"
  else if env.addrAddOk = false then Except.error "failed to add IPv6 address"
  else Except.ok { vlan with active := true }

/-- CreateVLANInterface.  The registered-port fast path returns the Go map
lookup `vm.interfaces[existingVLAN]`, which is a nil pointer when the two
maps are inconsistent — hence the `Option` in the ok payload. -/
def CreateVLANInterface (env : OSEnv) (vm : VLANManager) (port : String) :
    Except String (Option VLANInterface) × VLANManager :=
  match lookupA vm.portToVLAN port with
  | some existingVLAN => (Except.ok (lookupA vm.interfaces existingVLAN), vm)
  | none =>
    match atoi? port with
    | none => (Except.error ("invalid port number: " ++ port), vm)
    | some portNum =>
      let vlanID := portNum
      let interfaceName := "vlan" ++ toString vlanID
      let ipv6Addr := replaceFirst vm.ipv6Prefix "/64" "" ++ "::" ++ port
      let vlanInterface : VLANInterface :=
        { name := interfaceName, vlanID := vlanID, ipv6Address := ipv6Addr,
          port := port, active := false }
      match createLinuxVLANInterface env vlanInterface with
      | Except.error e =>
        (Except.error ("failed to create VLAN interface: " ++ e), vm)
      | Except.ok vi =>
        (Except.ok (some vi),
         { vm with interfaces := insertA vm.interfaces interfaceName vi,
                   portToVLAN := insertA vm.portToVLAN port interfaceName })

/-- RemoveVLANInterface: `some msg` is a returned error, `none` is nil. -/
def RemoveVLANInterface (env : OSEnv) (vm : VLANManager) (port : String) :
    Option String × VLANManager :=
  match lookupA vm.portToVLAN port with
  | none => (none, vm)
  | some vlanName =>
    if env.linkDelOk then
      (none, { vm with interfaces := eraseA vm.interfaces vlanName,
                       portToVLAN := eraseA vm.portToVLAN port })
    else (some "failed to remove VLAN interface", vm)

/-- GetVLANForPort. -/
def GetVLANForPort (vm : VLANManager) (port : String) : Option VLANInterface :=
  match lookupA vm.portToVLAN port with
  | some vlanName => lookupA vm.interfaces vlanName
  | none => none

/-! ### The create handler (handlers.go 19-67) -/

inductive CreateResp where
  | badRequest (msg : String)
  | serverError (msg : String)
  | nilDeref
  | ok (id : String) (vlanName : String) (ipv6 : String)
deriving DecidableEq

/-- handleCreateServerWithVLAN on an already-decoded request body (a body
that fails to decode is likewise rejected with 400 before touching state).
`nilDeref` marks the panic Go would hit reading `vlanInterface.Name` off the
nil pointer of an inconsistent fast path — unreachable from consistent
manager states. -/
def handleCreateServerWithVLAN (env : OSEnv) (a : App) (vm : VLANManager)
    (name port directory : String) : CreateResp × App × VLANManager :=
  if name = "" ∨ port = "" ∨ directory = "" then
    (CreateResp.badRequest "All fields are required", a, vm)
  else
    match atoi? port with
    | none => (CreateResp.badRequest "Port must be a number", a, vm)
    | some _ =>
      match CreateVLANInterface env vm port with
      | (Except.error e, vm') =>
        (CreateResp.serverError ("Failed to create VLAN interface: " ++ e), a, vm')
      | (Except.ok none, vm') => (CreateResp.nilDeref, a, vm')
      | (Except.ok (some vi), vm') =>
        match CreateServer a name port directory with
        | (id, a1) =>
          let a2 :=
            match lookupA a1.servers id with
            | none => a1
            | some r =>
              match hget? a1.heap r with
              | none => a1
              | some s =>
                let s2 := { s with vlanInterface := vi.name,
                                   ipv6Address := vi.ipv6Address }
                { a1 with heap := hset a1.heap r s2 }
          (CreateResp.ok id vi.name vi.ipv6Address, a2, vm')

/-! ### Concrete fixtures for witnesses and counterexamples -/

def srv1 : Server :=
  { id := "1", name := "web1", port := "8080", directory := "/srv/app",
    running := false, vlanInterface := "", ipv6Address := "" }

/-- One stopped server under identity "1". -/
def app1 : App :=
  { heap := [srv1], servers := [("1", 0)], nextID := 2, processes := [] }

/-- One running server with a live process handle. -/
def appRun : App :=
  { heap := [{ srv1 with running := true }], servers := [("1", 0)],
    nextID := 2, processes := ["1"] }

/-- One running server whose process handle was already reaped. -/
def appReaped : App :=
  { heap := [{ srv1 with running := true }], servers := [("1", 0)],
    nextID := 2, processes := [] }

def vi8080 : VLANInterface :=
  { name := "vlan8080", vlanID := 8080,
    ipv6Address := "2a0e:b107:384:ee25::::8080", port := "8080",
    active := true }

/-- A manager that already registered port 8080. -/
def vm8080 : VLANManager :=
  { ipv6Prefix := "2a0e:b107:384:ee25::/64",
    interfaces := [("vlan8080", vi8080)],
    portToVLAN := [("8080", "vlan8080")] }

/-- An OS run in which `ip link add` and `ip link delete` fail. -/
def envFail : OSEnv :=
  { mainIfaceOk := true, linkAddOk := false, linkUpOk := true,
    addrAddOk := true, linkDelOk := false }

def vmFresh : VLANManager :=
  NewVLANManager "2a0e:b107:384:ee25::/64"

/-! ### Library lemmas about the map and heap embeddings -/

theorem lookupA_mem {β : Type} {l : List (String × β)} {k : String} {v : β}
    (h : lookupA l k = some v) : (k, v) ∈ l := by
  induction l with
  | nil => simp [lookupA] at h
  | cons p t ih =>
    simp only [lookupA] at h
    split at h
    · next hk =>
      rw [Option.some.injEq] at h
      rw [← hk, ← h]
      simp
    · next hk => exact List.mem_cons_of_mem _ (ih h)

theorem lookupA_insert_self {β : Type} (l : List (String × β)) (k : String)
    (v : β) : lookupA (insertA l k v) k = some v := by
  simp [insertA, lookupA]

theorem hget?_hset_self {α : Type} {h : List α} {r : Nat} {s : α} (v : α)
    (hr : hget? h r = some s) : hget? (hset h r v) r = some v := by
  induction h generalizing r with
  | nil => simp [hget?] at hr
  | cons x t ih =>
    cases r with
    | zero => simp [hget?, hset]
    | succ n => simpa [hget?, hset] using ih (by simpa [hget?] using hr)

theorem hget?_append_cons {α : Type} (pre : List α) (x : α) (xs : List α) :
    hget? (pre ++ x :: xs) pre.length = some x := by
  induction pre with
  | nil => simp [hget?]
  | cons y t ih => simpa [hget?] using ih

theorem hget?_append_length {α : Type} (h : List α) (x : α) :
    hget? (h ++ [x]) h.length = some x :=
  hget?_append_cons h x []

/-! ### Decimal roundtrip: the value of `itoa n` is `n` -/

theorem digitChar_toNat {d : Nat} (h : d < 10) :
    (digitChar d).toNat = 48 + d := by
  interval_cases d <;> decide

theorem digitChar_isDigit {d : Nat} (h : d < 10) :
    (digitChar d).isDigit = true := by
  interval_cases d <;> decide

theorem itoaAux_decomp :
    ∀ n fuel acc, n < fuel → itoaAux fuel n acc = itoaAux (n + 1) n [] ++ acc := by
  intro n
  induction n using Nat.strong_induction_on with
  | _ n ih =>
    intro fuel acc hfuel
    match fuel, hfuel with
    | f + 1, hfuel =>
      by_cases h10 : n < 10
      · simp [itoaAux, h10]
      · have hpos : 0 < n := by omega
        have hdiv : n / 10 < n := Nat.div_lt_self hpos (by norm_num)
        have hdivf : n / 10 < f := by omega
        rw [show itoaAux (f + 1) n acc
              = itoaAux f (n / 10) (digitChar (n % 10) :: acc) by
            simp [itoaAux, h10]]
        rw [show itoaAux (n + 1) n []
              = itoaAux n (n / 10) [digitChar (n % 10)] by
            simp [itoaAux, h10]]
        rw [ih (n / 10) hdiv f (digitChar (n % 10) :: acc) hdivf]
        rw [ih (n / 10) hdiv n [digitChar (n % 10)] (by omega)]
        simp

theorem itoaAux_val : ∀ n : Nat, atoiDigits (itoaAux (n + 1) n []) = n := by
  intro n
  induction n using Nat.strong_induction_on with
  | _ n ih =>
    by_cases h10 : n < 10
    · rw [show itoaAux (n + 1) n [] = [digitChar n] by simp [itoaAux, h10]]
      simp [atoiDigits, digitChar_toNat h10]
    · have hpos : 0 < n := by omega
      have hdiv : n / 10 < n := Nat.div_lt_self hpos (by norm_num)
      rw [show itoaAux (n + 1) n [] = itoaAux n (n / 10) [digitChar (n % 10)] by
            simp [itoaAux, h10]]
      rw [itoaAux_decomp (n / 10) n [digitChar (n % 10)] (by omega)]
      have hval := ih (n / 10) hdiv
      simp only [atoiDigits, List.foldl_append] at hval ⊢
      rw [hval]
      simp only [List.foldl_cons, List.foldl_nil,
        digitChar_toNat (Nat.mod_lt n (by norm_num))]
      omega

theorem itoa_val (n : Nat) : atoiDigits (itoa n).data = n :=
  itoaAux_val n

theorem itoaAux_digits : ∀ n : Nat, (itoaAux (n + 1) n []).all Char.isDigit = true := by
  intro n
  induction n using Nat.strong_induction_on with
  | _ n ih =>
    by_cases h10 : n < 10
    · rw [show itoaAux (n + 1) n [] = [digitChar n] by simp [itoaAux, h10]]
      simp [digitChar_isDigit h10]
    · have hpos : 0 < n := by omega
      have hdiv : n / 10 < n := Nat.div_lt_self hpos (by norm_num)
      rw [show itoaAux (n + 1) n [] = itoaAux n (n / 10) [digitChar (n % 10)] by
            simp [itoaAux, h10]]
      rw [itoaAux_decomp (n / 10) n [digitChar (n % 10)] (by omega)]
      rw [List.all_append]
      rw [ih (n / 10) hdiv]
      simp [digitChar_isDigit (Nat.mod_lt n (by norm_num))]

theorem itoa_digits (n : Nat) : (itoa n).data.all Char.isDigit = true :=
  itoaAux_digits n

theorem itoaAux_ne_nil (n : Nat) : itoaAux (n + 1) n [] ≠ [] := by
  by_cases h10 : n < 10
  · rw [show itoaAux (n + 1) n [] = [digitChar n] by simp [itoaAux, h10]]
    simp
  · rw [show itoaAux (n + 1) n [] = itoaAux n (n / 10) [digitChar (n % 10)] by
          simp [itoaAux, h10]]
    rw [itoaAux_decomp (n / 10) n [digitChar (n % 10)] (by omega)]
    simp

theorem itoa_ne_nil (n : Nat) : (itoa n).data ≠ [] :=
  itoaAux_ne_nil n

theorem decVal?_itoa (n : Nat) : decVal? (itoa n) = some n := by
  simp [decVal?, itoa_ne_nil n, itoa_digits n, itoa_val n]

/-! ### Frame lemmas: which operations leave the id map and `nextID` alone -/

theorem eraseA_subset {β : Type} {p : String × β} :
    ∀ {l : List (String × β)} {k : String}, p ∈ eraseA l k → p ∈ l := by
  intro l
  induction l with
  | nil => intro k h; simp [eraseA] at h
  | cons q t ih =>
    intro k h
    simp only [eraseA] at h
    split at h
    · exact List.mem_cons_of_mem _ (ih h)
    · rcases List.mem_cons.mp h with h | h
      · exact h ▸ List.mem_cons_self _ _
      · exact List.mem_cons_of_mem _ (ih h)

theorem StopServer_frame (a : App) (id : String) (k : Bool) :
    (StopServer a id k).2.servers = a.servers ∧
    (StopServer a id k).2.nextID = a.nextID := by
  unfold StopServer
  repeat' split
  all_goals exact ⟨rfl, rfl⟩

theorem StartServer_frame (a : App) (id : String) (k : Bool) :
    (StartServer a id k).2.servers = a.servers ∧
    (StartServer a id k).2.nextID = a.nextID := by
  unfold StartServer
  repeat' split
  all_goals exact ⟨rfl, rfl⟩

theorem UpdateServer_frame (a : App) (id n p d : String) (k : Bool) :
    (UpdateServer a id n p d k).2.servers = a.servers ∧
    (UpdateServer a id n p d k).2.nextID = a.nextID := by
  have hs := StopServer_frame a id k
  unfold UpdateServer
  dsimp only
  repeat' split
  all_goals refine ⟨?_, ?_⟩ <;> first | rfl | exact hs.1 | exact hs.2

theorem DeleteServer_frame (a : App) (id : String) (k : Bool) :
    ((DeleteServer a id k).2.servers = a.servers ∨
      (DeleteServer a id k).2.servers = eraseA a.servers id) ∧
    (DeleteServer a id k).2.nextID = a.nextID := by
  have hs := StopServer_frame a id k
  unfold DeleteServer
  dsimp only
  repeat' split
  all_goals refine ⟨?_, ?_⟩ <;>
    first
    | exact Or.inl rfl
    | exact Or.inr rfl
    | rfl
    | exact hs.2
    | exact Or.inr (by rw [hs.1])

theorem idBound_of_frame {a a' : App} (hs : a'.servers = a.servers)
    (hn : a'.nextID = a.nextID) (h : idBound a) : idBound a' := by
  intro p hp n hdv
  rw [hn]
  exact h p (hs ▸ hp) n hdv

/-! ### The reload lemma (loadConfig) -/

theorem load_aux (l : List (String × Server)) (id : String) :
    ∀ pre : List Server,
      (lookupA (mkServers l pre.length) id).bind
        (hget? (pre ++ l.map (fun p => clearRunning p.2)))
      = (lookupA l id).map clearRunning := by
  induction l with
  | nil => intro pre; simp [mkServers, lookupA]
  | cons p t ih =>
    intro pre
    by_cases hk : p.1 = id
    · simp only [mkServers, lookupA, hk, if_pos, List.map_cons, Option.some_bind]
      exact (hget?_append_cons pre (clearRunning p.2) _).trans rfl
    · simp only [mkServers, lookupA, hk, if_neg, ite_false, List.map_cons]
      have h := ih (pre ++ [clearRunning p.2])
      rw [List.length_append, List.append_assoc] at h
      simpa using h

/-! ### The claims -/

/-- C1: the claim as stated is false on the code.  `GetServers` copies the
slice of pointers, not the records: at the concrete one-server state `app1`,
an `UpdateServer` performed after the call changes the contents of the
records reachable through the previously returned collection. -/
theorem getServers_snapshot_counterexample :
    ¬ readList (UpdateServer app1 "1" "web2" "9090" "/srv/app2" true).2
        (GetServers app1)
      = readList app1 (GetServers app1) := by
  decide

/-- C1 (amended): the collection returned by `GetServers` aliases the live
records: it holds the reference of every listed server, and a subsequent
`UpdateServer` of a listed (not currently running) server makes the updated
field values visible through that previously returned reference. -/
theorem getServers_aliases_update (a : App) (id n p d : String) (r : Nat)
    (s : Server) (k : Bool)
    (h1 : lookupA a.servers id = some r) (h2 : hget? a.heap r = some s)
    (h3 : s.running = false) :
    r ∈ GetServers a ∧
    readRef (UpdateServer a id n p d k).2 r
      = some { s with name := n, port := p, directory := d } := by
  constructor
  · exact List.mem_map.mpr ⟨(id, r), lookupA_mem h1, rfl⟩
  · have hres : (UpdateServer a id n p d k).2
        = { a with heap := hset a.heap r { s with name := n, port := p, directory := d } } := by
      simp [UpdateServer, h1, h2, h3]
    rw [show readRef (UpdateServer a id n p d k).2 r
          = hget? (UpdateServer a id n p d k).2.heap r from rfl, hres]
    exact hget?_hset_self _ h2

/-- C1 witness: the amended aliasing theorem applied at `app1`. -/
theorem getServers_aliases_update_witness :
    (0 : Nat) ∈ GetServers app1 ∧
    readRef (UpdateServer app1 "1" "web2" "9090" "/srv/app2" true).2 0
      = some { srv1 with name := "web2", port := "9090", directory := "/srv/app2" } :=
  getServers_aliases_update app1 "1" "web2" "9090" "/srv/app2" 0 srv1 true
    rfl rfl rfl

/-- C2: Allocate is idempotent per registered port: when `port` is already
registered (with its identity present in the interface map),
`CreateVLANInterface` returns exactly that identity with no error and the
manager state unchanged, so two consecutive calls with the same port return
an identical identity. -/
theorem allocate_idempotent (env env2 : OSEnv) (vm : VLANManager)
    (port nm : String) (vi : VLANInterface)
    (h1 : lookupA vm.portToVLAN port = some nm)
    (h2 : lookupA vm.interfaces nm = some vi) :
    CreateVLANInterface env vm port = (Except.ok (some vi), vm) ∧
    CreateVLANInterface env2 vm port = (Except.ok (some vi), vm) := by
  constructor <;> simp only [CreateVLANInterface, h1, h2]

/-- C2 witness: both calls at the registered manager `vm8080`. -/
theorem allocate_idempotent_witness :
    CreateVLANInterface envOK vm8080 "8080" = (Except.ok (some vi8080), vm8080) ∧
    CreateVLANInterface envOK vm8080 "8080" = (Except.ok (some vi8080), vm8080) :=
  allocate_idempotent envOK envOK vm8080 "8080" "vlan8080" vi8080 rfl rfl

/-- C3: evaluating the derivation at the configured prefix
`2a0e:b107:384:ee25::/64` and port 8080.  The interface name is `vlan8080`
(so it contains `8080`) and the VLAN tag is 8080, but the derived address is
`2a0e:b107:384:ee25::::8080` — the code appends `::` to a stripped prefix
that already ends in `::` — and not the `2a0e:b107:384:ee25::8080` stated by
the claim and by the repository's own README. -/
theorem derive8080_eval :
    (CreateVLANInterface envOK vmFresh "8080").1
      = Except.ok (some { name := "vlan8080", vlanID := 8080,
                          ipv6Address := "2a0e:b107:384:ee25::::8080",
                          port := "8080", active := true })
    ∧ List.IsInfix "8080".data "vlan8080".data
    ∧ "2a0e:b107:384:ee25::::8080" ≠ "2a0e:b107:384:ee25::8080" :=
  ⟨rfl, ⟨"vlan".data, [], rfl⟩, by decide⟩

/-- C5: Start fails and changes nothing when the id is unknown or the server
is already running. -/
theorem start_precondition (a : App) (id : String) (spawnOk : Bool) :
    (lookupA a.servers id = none → StartServer a id spawnOk = (false, a)) ∧
    (∀ r s, lookupA a.servers id = some r → hget? a.heap r = some s →
      s.running = true → StartServer a id spawnOk = (false, a)) := by
  constructor
  · intro h
    simp [StartServer, h]
  · intro r s h1 h2 h3
    simp [StartServer, h1, h2, h3]

/-- C5 witness: Start on the already-running server of `appRun` and on an
unknown id. -/
theorem start_precondition_witness :
    StartServer appRun "1" true = (false, appRun) ∧
    StartServer appRun "404" true = (false, appRun) :=
  ⟨(start_precondition appRun "1" true).2 0 { srv1 with running := true }
      rfl rfl rfl,
   (start_precondition appRun "404" true).1 rfl⟩

/-- C6: Stop of a running server whose process handle is missing succeeds
idempotently, clearing only the running flag; Stop of an unknown or
not-running server fails and changes nothing. -/
theorem stop_reaped_and_precondition (a : App) (id : String) (k : Bool) :
    (∀ r s, lookupA a.servers id = some r → hget? a.heap r = some s →
      s.running = true → containsS a.processes id = false →
      StopServer a id k
        = (true, { a with heap := hset a.heap r { s with running := false } })) ∧
    (lookupA a.servers id = none → StopServer a id k = (false, a)) ∧
    (∀ r s, lookupA a.servers id = some r → hget? a.heap r = some s →
      s.running = false → StopServer a id k = (false, a)) := by
  refine ⟨?_, ?_, ?_⟩
  · intro r s h1 h2 h3 h4
    simp [StopServer, h1, h2, h3, h4]
  · intro h
    simp [StopServer, h]
  · intro r s h1 h2 h3
    simp [StopServer, h1, h2, h3]

/-- C6 witness: reaped stop at `appReaped`, unknown id, and stopped server. -/
theorem stop_reaped_witness :
    StopServer appReaped "1" true = (true, { appReaped with heap := [srv1] }) ∧
    StopServer appReaped "404" true = (false, appReaped) ∧
    StopServer app1 "1" true = (false, app1) :=
  ⟨(stop_reaped_and_precondition appReaped "1" true).1 0
      { srv1 with running := true } rfl rfl rfl rfl,
   (stop_reaped_and_precondition appReaped "404" true).2.1 rfl,
   (stop_reaped_and_precondition app1 "1" true).2.2 0 srv1 rfl rfl rfl⟩

/-- C10: GetServerStatus is a pure read returning `(false, false)` on an
unknown id and `(true, running)` on a present one. -/
theorem status_pure_read (a : App) (id : String) :
    (lookupA a.servers id = none → GetServerStatus a id = (false, false)) ∧
    (∀ s, readServer a id = some s → GetServerStatus a id = (true, s.running)) := by
  constructor
  · intro h
    simp [GetServerStatus, h]
  · intro s h
    unfold readServer at h
    cases hl : lookupA a.servers id with
    | none => rw [hl] at h; simp at h
    | some r =>
      rw [hl] at h
      simp only [Option.some_bind] at h
      simp [GetServerStatus, hl, show hget? a.heap r = some s from h]

/-- C10 witness: status of the running server of `appRun` and of an unknown
id. -/
theorem status_pure_read_witness :
    GetServerStatus appRun "404" = (false, false) ∧
    GetServerStatus appRun "1" = (true, true) :=
  ⟨(status_pure_read appRun "404").1 rfl,
   (status_pure_read appRun "1").2 { srv1 with running := true } rfl⟩

/-- C4: the claim as stated is false on the code.  The handler validates the
port with strconv.Atoi only, which accepts 0 (and negative numbers): the
concrete request `("a", "0", "/d")`, whose port parses to the non-positive
integer 0, is accepted and creates server "1" instead of being rejected. -/
theorem create_accepts_port_zero :
    (handleCreateServerWithVLAN envOK NewApp vmFresh "a" "0" "/d").1
      = CreateResp.ok "1" "vlan0" "2a0e:b107:384:ee25::::0"
    ∧ atoi? "0" = some 0 ∧ ¬ (0 : Int) > 0 :=
  ⟨rfl, rfl, by decide⟩

/-- C4 (amended): a create request is rejected with a validation error,
before any core state is touched, unless name, port and directory are all
non-empty and the port parses as an integer (sign included — positivity is
not checked); every request that passes validation and whose interface
provisioning succeeds stores a new record with running=false and returns its
identity. -/
theorem create_validation (env : OSEnv) (a : App) (vm : VLANManager)
    (name port directory : String) :
    ((name = "" ∨ port = "" ∨ directory = "" ∨ atoi? port = none) →
      ∃ msg, handleCreateServerWithVLAN env a vm name port directory
        = (CreateResp.badRequest msg, a, vm)) ∧
    (∀ (v : Int) (vi : VLANInterface) (vm' : VLANManager),
      atoi? port = some v →
      CreateVLANInterface env vm port = (Except.ok (some vi), vm') →
      name ≠ "" → directory ≠ "" →
      (handleCreateServerWithVLAN env a vm name port directory).1
          = CreateResp.ok (itoa a.nextID) vi.name vi.ipv6Address
        ∧ (handleCreateServerWithVLAN env a vm name port directory).2.2 = vm'
        ∧ readServer (handleCreateServerWithVLAN env a vm name port directory).2.1
            (itoa a.nextID)
          = some { id := itoa a.nextID, name := name, port := port,
                   directory := directory, running := false,
                   vlanInterface := vi.name, ipv6Address := vi.ipv6Address }) := by
  constructor
  · intro h
    by_cases hc : name = "" ∨ port = "" ∨ directory = ""
    · exact ⟨"All fields are required", by simp [handleCreateServerWithVLAN, hc]⟩
    · rcases h with h | h | h | h
      · exact absurd (Or.inl h) hc
      · exact absurd (Or.inr (Or.inl h)) hc
      · exact absurd (Or.inr (Or.inr h)) hc
      · exact ⟨"Port must be a number",
          by simp [handleCreateServerWithVLAN, hc, h]⟩
  · intro v vi vm' hv hcv hn hd
    have hp : port ≠ "" := by
      intro he
      rw [he, show atoi? "" = none from rfl] at hv
      cases hv
    have hc : ¬ (name = "" ∨ port = "" ∨ directory = "") := by
      intro hor
      rcases hor with h | h | h
      · exact hn h
      · exact hp h
      · exact hd h
    refine ⟨?_, ?_, ?_⟩ <;>
      simp only [handleCreateServerWithVLAN, if_neg hc, hv, hcv, CreateServer,
        lookupA_insert_self, hget?_append_length, readServer, readRef]
    exact hget?_hset_self _ (hget?_append_length a.heap _)

/-- C4 witness: the amended theorem applied at the empty-name request and at
the accepted request `("web1", "8080", "/srv/app")` against a fresh state. -/
theorem create_validation_witness :
    (∃ msg, handleCreateServerWithVLAN envOK NewApp vmFresh "" "8080" "/srv/app"
      = (CreateResp.badRequest msg, NewApp, vmFresh)) ∧
    (handleCreateServerWithVLAN envOK NewApp vmFresh "web1" "8080" "/srv/app").1
      = CreateResp.ok (itoa NewApp.nextID) "vlan8080" "2a0e:b107:384:ee25::::8080" :=
  ⟨(create_validation envOK NewApp vmFresh "" "8080" "/srv/app").1
      (Or.inl rfl),
   ((create_validation envOK NewApp vmFresh "web1" "8080" "/srv/app").2
      8080 vi8080 vm8080 rfl rfl (by decide) (by decide)).1⟩

/-- C7: reloading a persisted snapshot restores the servers map and nextID
verbatim except that every record's running flag is forced to false, and a
fresh startup has no process handles. -/
theorem load_restores_except_running (a : App) (cfg : AppConfig) (id : String) :
    readServer (loadConfig a (some cfg)) id
      = (lookupA cfg.servers id).map clearRunning
    ∧ (loadConfig a (some cfg)).nextID = cfg.nextID
    ∧ (startup (some cfg)).processes = [] := by
  refine ⟨?_, rfl, rfl⟩
  have h := load_aux cfg.servers id []
  simpa [readServer, readRef, loadConfig] using h

/-- C8: the invariant "nextID strictly exceeds the numeric value of every
identity in the map" makes the next issued identity fresh and is preserved
by Create (which issues decimal(nextID) and increments), Update, Delete,
Start and Stop. -/
theorem identity_invariant (a : App) (name port directory id2 : String)
    (k : Bool) (h : idBound a) :
    lookupA a.servers (itoa a.nextID) = none
    ∧ (CreateServer a name port directory).1 = itoa a.nextID
    ∧ (CreateServer a name port directory).2.nextID = a.nextID + 1
    ∧ idBound (CreateServer a name port directory).2
    ∧ idBound (UpdateServer a id2 name port directory k).2
    ∧ idBound (DeleteServer a id2 k).2
    ∧ idBound (StartServer a id2 k).2
    ∧ idBound (StopServer a id2 k).2 := by
  refine ⟨?_, rfl, rfl, ?_, ?_, ?_, ?_, ?_⟩
  · cases hl : lookupA a.servers (itoa a.nextID) with
    | none => rfl
    | some v =>
      have := h _ (lookupA_mem hl) a.nextID (decVal?_itoa a.nextID)
      omega
  · intro p hp n hdv
    show n < a.nextID + 1
    have hp' : p ∈ insertA a.servers (itoa a.nextID) a.heap.length := hp
    rcases List.mem_cons.mp hp' with he | ht
    · rw [he] at hdv
      have hdv' : decVal? (itoa a.nextID) = some n := hdv
      rw [decVal?_itoa] at hdv'
      have := Option.some.inj hdv'
      omega
    · exact Nat.lt_succ_of_lt (h p (eraseA_subset ht) n hdv)
  · exact idBound_of_frame (UpdateServer_frame a id2 name port directory k).1
      (UpdateServer_frame a id2 name port directory k).2 h
  · intro p hp n hdv
    rw [(DeleteServer_frame a id2 k).2]
    rcases (DeleteServer_frame a id2 k).1 with hs | hs
    · exact h p (hs ▸ hp) n hdv
    · exact h p (eraseA_subset (hs ▸ hp)) n hdv
  · exact idBound_of_frame (StartServer_frame a id2 k).1
      (StartServer_frame a id2 k).2 h
  · exact idBound_of_frame (StopServer_frame a id2 k).1
      (StopServer_frame a id2 k).2 h

/-- C8 witness: the invariant theorem applied at the fresh state. -/
theorem identity_invariant_witness :
    lookupA NewApp.servers (itoa NewApp.nextID) = none
    ∧ (CreateServer NewApp "web1" "8080" "/srv/app").1 = itoa NewApp.nextID
    ∧ (CreateServer NewApp "web1" "8080" "/srv/app").2.nextID = NewApp.nextID + 1
    ∧ idBound (CreateServer NewApp "web1" "8080" "/srv/app").2
    ∧ idBound (UpdateServer NewApp "1" "web1" "8080" "/srv/app" true).2
    ∧ idBound (DeleteServer NewApp "1" true).2
    ∧ idBound (StartServer NewApp "1" true).2
    ∧ idBound (StopServer NewApp "1" true).2 :=
  identity_invariant NewApp "web1" "8080" "/srv/app" "1" true
    (by intro p hp n hdv; simp [NewApp] at hp)

/-- C9: provisioner bookkeeping is untouched on error.  Any error return of
`CreateVLANInterface` leaves the manager exactly as before; an OS failure in
any interface-creation step produces such an error; and a failing kernel
deletion makes `RemoveVLANInterface` return an error with both maps still
holding the identity and the port entry. -/
theorem provisioner_atomic_on_error (env : OSEnv) (vm : VLANManager)
    (port : String) :
    (∀ e, (CreateVLANInterface env vm port).1 = Except.error e →
      (CreateVLANInterface env vm port).2 = vm) ∧
    (∀ v : Int, lookupA vm.portToVLAN port = none → atoi? port = some v →
      (env.mainIfaceOk && env.linkAddOk && env.linkUpOk && env.addrAddOk) = false →
      ∃ e, CreateVLANInterface env vm port = (Except.error e, vm)) ∧
    (∀ nm, lookupA vm.portToVLAN port = some nm → env.linkDelOk = false →
      RemoveVLANInterface env vm port
        = (some "failed to remove VLAN interface", vm)) := by
  obtain ⟨mi, la, lu, aa, ld⟩ := env
  refine ⟨?_, ?_, ?_⟩
  · intro e he
    cases hpv : lookupA vm.portToVLAN port with
    | some nm => simp [CreateVLANInterface, hpv] at he
    | none =>
      cases hat : atoi? port with
      | none => simp [CreateVLANInterface, hpv, hat]
      | some v =>
        cases mi <;> cases la <;> cases lu <;> cases aa <;>
          simp_all [CreateVLANInterface, createLinuxVLANInterface, hpv, hat]
  · intro v hpv hat hos
    cases mi <;> cases la <;> cases lu <;> cases aa <;>
      simp_all [CreateVLANInterface, createLinuxVLANInterface]
  · intro nm hpv hld
    subst hld
    simp [RemoveVLANInterface, hpv]

/-- C9 witness: a run where `ip link add` and `ip link delete` fail, at the
fresh manager and at the registered manager `vm8080`. -/
theorem provisioner_atomic_witness :
    (CreateVLANInterface envFail vmFresh "8080").2 = vmFresh
    ∧ (∃ e, CreateVLANInterface envFail vmFresh "8080"
        = (Except.error e, vmFresh))
    ∧ RemoveVLANInterface envFail vm8080 "8080"
        = (some "failed to remove VLAN interface", vm8080) :=
  ⟨(provisioner_atomic_on_error envFail vmFresh "8080").1
      "failed to create VLAN interface: failed to create VLAN interface" rfl,
   (provisioner_atomic_on_error envFail vmFresh "8080").2.1 8080 rfl rfl rfl,
   (provisioner_atomic_on_error envFail vm8080 "8080").2.2 "vlan8080" rfl rfl⟩
